import Mathlib

/-!
Shallow embedding of `plugins/modules/porkbun_record.py` (ansible-collection-porkbun).

The module has two parts:
* `PorkbunAPI`: four HTTP operations against the Porkbun DNS API
  (`get_records`, `get_record`, `create_record`, `update_record`, `delete_record`);
* `main`: the reconciler, which looks the record up once and then issues at
  most one mutating call (create / editByNameType / delete), returning a
  `{changed, msg}` result via `module.exit_json`.

The embedding replaces the network by explicit data: the reconciler receives
the provider's record listing (the successfully parsed `records` array of the
`retrieve` call) as a list, and emits the sequence of API calls it would issue
as a trace.  The JSON layer of `get_records` is embedded separately on a small
JSON value type so that its error behaviour (missing `records` field) can be
settled exactly.
-/

namespace Porkbun

/-- Minimal JSON value model for the provider's response bodies
(`json.loads(response.read())` in the source). -/
inductive Json where
  | null : Json
  | bool (b : Bool) : Json
  | num (n : Int) : Json
  | str (s : String) : Json
  | arr (elems : List Json) : Json
  | obj (fields : List (String × Json)) : Json

/-- Python exceptions that the embedded code can surface, plus `apiError`,
which the spec's error taxonomy names but which never occurs in the source
(the source defines no exception classes at all). -/
inductive PyError where
  | transportError (msg : String) : PyError
  | keyError (key : String) : PyError
  | typeError (msg : String) : PyError
  | valueError (litString : String) : PyError
  | apiError (msg : String) : PyError
deriving DecidableEq, Repr

/-- A record as returned by the provider's `retrieve` endpoint: the fields the
source reads (`record['type']`, `record['name']`, `record['content']`,
`record['ttl']`, `record['id']`).  `ttl` is a string-encoded integer, exactly
as the provider delivers it. -/
structure RemoteRecord where
  id : String
  type : String
  name : String
  content : String
  ttl : String
deriving DecidableEq, Repr

/-- The `state` module parameter; `AnsibleModule` restricts it to
`choices=['present', 'absent']`. -/
inductive DesiredState where
  | present : DesiredState
  | absent : DesiredState
deriving DecidableEq, Repr

/-- The validated module parameters that drive reconciliation (credential
plumbing is out of scope, as the spec declares). -/
structure RecordSpec where
  state : DesiredState
  domain : String
  record_type : String
  name : String
  content : String
  ttl : Int
deriving DecidableEq, Repr

/-- The `module.exit_json(changed=..., msg=...)` payload. -/
structure ReconcileResult where
  changed : Bool
  msg : String
deriving DecidableEq, Repr

/-- One HTTP call of the API client, identified by its endpoint and the
request-specific data the source puts in the path and body (credentials and
headers are constant and omitted). -/
inductive ApiCall where
  | retrieve (domain : String) : ApiCall
  | create (domain record_type name content : String) (ttl : Int) : ApiCall
  | editByNameType (domain record_type name content : String) (ttl : Int) : ApiCall
  | delete (domain record_id : String) : ApiCall
deriving DecidableEq, Repr

/-- First binding of a key in a JSON object's field list (Python dict read
`result[key]`; `json.loads` keeps the last duplicate, but the provider sends
unique keys, and lookup order only matters for presence here). -/
def lookupField : List (String × Json) → String → Option Json
  | [], _ => none
  | (k, v) :: rest, key => if k = key then some v else lookupField rest key

/-- Embeds `PorkbunAPI.get_records`: `open_url(...)` followed by
`json.loads(response.read())['records']`.  The input is either a transport
failure raised by `open_url` or the parsed response JSON.  Reading a missing
key from a dict raises `KeyError`; subscripting a non-object JSON value with a
string raises `TypeError`.  No field other than `records` is inspected. -/
def get_records (resp : Except String Json) : Except PyError Json :=
  match resp with
  | .error msg => .error (.transportError msg)
  | .ok result =>
    match result with
    | .obj fields =>
      match lookupField fields "records" with
      | some v => .ok v
      | none => .error (.keyError "records")
    | _ => .error (.typeError "indices must be integers")

/-- Value of a list of decimal digit characters. -/
def digitsVal (cs : List Char) : Nat :=
  cs.foldl (fun a c => a * 10 + (c.toNat - 48)) 0

/-- Parse a nonempty all-digit character list, `none` otherwise. -/
def digitsToNat? (cs : List Char) : Option Nat :=
  if cs.isEmpty then none
  else if cs.all Char.isDigit then some (digitsVal cs) else none

/-- Models Python `int(s)` on an optionally signed decimal string, as applied
to `record['ttl']` in the source: an optional `+`/`-` sign followed by at
least one digit (leading zeros allowed, so `int("0600") = 600`); `none` is
`ValueError`.  Python's additional tolerance for surrounding whitespace and
digit-group underscores is not modelled; provider TTLs are plain digit
strings. -/
def pyInt? (s : String) : Option Int :=
  match s.data with
  | '-' :: rest => (digitsToNat? rest).map fun n => -(n : Int)
  | '+' :: rest => (digitsToNat? rest).map fun n => (n : Int)
  | cs => (digitsToNat? cs).map fun n => (n : Int)

/-- The fully-qualified target name of `PorkbunAPI.get_record`:
`f'{name}.{domain}' if name else domain` (Python string truthiness is
non-emptiness). -/
def fqn (name domain : String) : String :=
  if name ≠ "" then name ++ "." ++ domain else domain

/-- Embeds `PorkbunAPI.get_record` given the listing that `get_records`
returned: linear scan returning the first record whose `type` equals
`record_type` and whose `name` equals the fully-qualified target name, else
`None`. -/
def get_record (records : List RemoteRecord) (domain record_type name : String) :
    Option RemoteRecord :=
  records.find? fun record =>
    record.type == record_type && record.name == fqn name domain

/-- The `supports_check_mode=True` flag of the `AnsibleModule` declaration. -/
def supports_check_mode : Bool := true

/-- Embeds `main` after argument parsing: the reconciler.  Inputs beyond the
spec are the provider's record listing for the `retrieve` call, the
`module.check_mode` flag (which the source never reads), and the parsed JSON
bodies the provider returns for completed mutating calls (which the source
parses and discards).  Output is the `exit_json` payload — or the propagated
`ValueError` when `int(record['ttl'])` fails — together with the trace of API
calls in issue order.  The `or` on line 204 of the source short-circuits:
when the content differs, `int(record['ttl'])` is never evaluated. -/
def main (spec : RecordSpec) (records : List RemoteRecord) (checkMode : Bool)
    (bodies : ApiCall → Json) : Except PyError ReconcileResult × List ApiCall :=
  match get_record records spec.domain spec.record_type spec.name with
  | record? =>
    match spec.state with
    | .present =>
      match record? with
      | none =>
        (.ok ⟨true, "DNS record created"⟩,
         [.retrieve spec.domain,
          .create spec.domain spec.record_type spec.name spec.content spec.ttl])
      | some record =>
        if record.content ≠ spec.content then
          (.ok ⟨true, "DNS record updated"⟩,
           [.retrieve spec.domain,
            .editByNameType spec.domain spec.record_type spec.name spec.content spec.ttl])
        else
          match pyInt? record.ttl with
          | none => (.error (.valueError record.ttl), [.retrieve spec.domain])
          | some remote_ttl =>
            if remote_ttl ≠ spec.ttl then
              (.ok ⟨true, "DNS record updated"⟩,
               [.retrieve spec.domain,
                .editByNameType spec.domain spec.record_type spec.name spec.content spec.ttl])
            else
              (.ok ⟨false, "DNS record already exists"⟩, [.retrieve spec.domain])
    | .absent =>
      match record? with
      | none =>
        (.ok ⟨false, "DNS record does not exist"⟩, [.retrieve spec.domain])
      | some record =>
        (.ok ⟨true, "DNS record deleted"⟩,
         [.retrieve spec.domain, .delete spec.domain record.id])

/-- Whether a call hits a mutating endpoint (`create`, `editByNameType`,
`delete`) as opposed to the read-only `retrieve`. -/
def isMutating : ApiCall → Bool
  | .retrieve _ => false
  | _ => true

/-- The mutating subsequence of a call trace. -/
def mutatingCalls (calls : List ApiCall) : List ApiCall :=
  calls.filter isMutating

/-- The `changed` flag of a completed run, `none` when the run raised. -/
def changedOf : Except PyError ReconcileResult → Option Bool
  | .ok res => some res.changed
  | .error _ => none

/-- Whether a `get_records` outcome is the spec taxonomy's `ApiError`. -/
def isApiError : Except PyError Json → Bool
  | .error (.apiError _) => true
  | _ => false

/-- Faithful-provider model (the hypothesis of the idempotence claim): how the
provider's record set evolves when it applies one of the reconciler's calls.
`create` appends a record under a fresh id `fid`, storing the fully-qualified
name and the provider's string encoding `enc` of the integer ttl;
`editByNameType` rewrites content and ttl of every record matching the type
and fully-qualified name (the endpoint targets by name and type, not id);
`delete` removes the record with the given id; `retrieve` is read-only. -/
def applyCall (enc : Int → String) (fid : String) (records : List RemoteRecord) :
    ApiCall → List RemoteRecord
  | .retrieve _ => records
  | .create domain record_type name content ttl =>
      records ++ [{ id := fid, type := record_type, name := fqn name domain,
                    content := content, ttl := enc ttl }]
  | .editByNameType domain record_type name content ttl =>
      records.map fun r =>
        if r.type == record_type && r.name == fqn name domain then
          { r with content := content, ttl := enc ttl }
        else r
  | .delete _ record_id => records.filter fun r => r.id != record_id

/-- Apply a whole trace of calls to the provider state, in issue order. -/
def applyCalls (enc : Int → String) (fid : String)
    (records : List RemoteRecord) (calls : List ApiCall) : List RemoteRecord :=
  calls.foldl (applyCall enc fid) records

/-- The provider-contract assumption the spec makes (section 4.1): at most one
record per `(type, fully-qualified name)` pair. -/
def UniquePerTypeName (records : List RemoteRecord) : Prop :=
  records.Pairwise fun a b => ¬(a.type = b.type ∧ a.name = b.name)

/-- Spec-side match predicate, written from the claim's words: the record's
type equals the requested record type, and its name equals the target name,
which is the bare domain when `name` is empty and `name.domain` otherwise. -/
def matchesTarget (record_type name domain : String) (r : RemoteRecord) : Prop :=
  r.type = record_type ∧
    r.name = (if name = "" then domain else name ++ "." ++ domain)

section MainEquations

variable (spec : RecordSpec) (records : List RemoteRecord)
variable (cm : Bool) (bodies : ApiCall → Json)

/-- Branch equation of `main`: present, no matching record. -/
theorem main_present_create
    (hstate : spec.state = DesiredState.present)
    (hnone : get_record records spec.domain spec.record_type spec.name = none) :
    main spec records cm bodies =
      (.ok ⟨true, "DNS record created"⟩,
       [.retrieve spec.domain,
        .create spec.domain spec.record_type spec.name spec.content spec.ttl]) := by
  simp [main, hstate, hnone]

/-- Branch equation of `main`: present, match found, content differs (the
`or` short-circuits, so the ttl string is never parsed). -/
theorem main_present_update_content {record : RemoteRecord}
    (hstate : spec.state = DesiredState.present)
    (hfound : get_record records spec.domain spec.record_type spec.name = some record)
    (hc : record.content ≠ spec.content) :
    main spec records cm bodies =
      (.ok ⟨true, "DNS record updated"⟩,
       [.retrieve spec.domain,
        .editByNameType spec.domain spec.record_type spec.name spec.content spec.ttl]) := by
  simp [main, hstate, hfound, hc]

/-- Branch equation of `main`: present, match found, content equal but the
parsed ttl differs. -/
theorem main_present_update_ttl {record : RemoteRecord} {n : Int}
    (hstate : spec.state = DesiredState.present)
    (hfound : get_record records spec.domain spec.record_type spec.name = some record)
    (hc : record.content = spec.content)
    (httl : pyInt? record.ttl = some n) (hne : n ≠ spec.ttl) :
    main spec records cm bodies =
      (.ok ⟨true, "DNS record updated"⟩,
       [.retrieve spec.domain,
        .editByNameType spec.domain spec.record_type spec.name spec.content spec.ttl]) := by
  simp [main, hstate, hfound, hc, httl, hne]

/-- Branch equation of `main`: present, match found, content and parsed ttl
both equal — no mutating call. -/
theorem main_present_noop {record : RemoteRecord}
    (hstate : spec.state = DesiredState.present)
    (hfound : get_record records spec.domain spec.record_type spec.name = some record)
    (hc : record.content = spec.content)
    (httl : pyInt? record.ttl = some spec.ttl) :
    main spec records cm bodies =
      (.ok ⟨false, "DNS record already exists"⟩, [.retrieve spec.domain]) := by
  simp [main, hstate, hfound, hc, httl]

/-- Branch equation of `main`: present, match found, content equal but the
remote ttl string fails to parse — `int` raises `ValueError`. -/
theorem main_present_value_error {record : RemoteRecord}
    (hstate : spec.state = DesiredState.present)
    (hfound : get_record records spec.domain spec.record_type spec.name = some record)
    (hc : record.content = spec.content)
    (httl : pyInt? record.ttl = none) :
    main spec records cm bodies =
      (.error (.valueError record.ttl), [.retrieve spec.domain]) := by
  simp [main, hstate, hfound, hc, httl]

/-- Branch equation of `main`: absent, no matching record — no mutating call. -/
theorem main_absent_none
    (hstate : spec.state = DesiredState.absent)
    (hnone : get_record records spec.domain spec.record_type spec.name = none) :
    main spec records cm bodies =
      (.ok ⟨false, "DNS record does not exist"⟩, [.retrieve spec.domain]) := by
  simp [main, hstate, hnone]

/-- Branch equation of `main`: absent, match found — delete by the found
record's id. -/
theorem main_absent_delete {record : RemoteRecord}
    (hstate : spec.state = DesiredState.absent)
    (hfound : get_record records spec.domain spec.record_type spec.name = some record) :
    main spec records cm bodies =
      (.ok ⟨true, "DNS record deleted"⟩,
       [.retrieve spec.domain, .delete spec.domain record.id]) := by
  simp [main, hstate, hfound]

end MainEquations

section LookupLemmas

/-- `List.find?` returns the first element satisfying the predicate: whenever
it returns `some a`, there is a position holding `a` such that every earlier
position fails the predicate. -/
theorem find?_first_characterisation {α : Type} (p : α → Bool) :
    ∀ (l : List α) (a : α), l.find? p = some a →
      ∃ i, l.get? i = some a ∧ p a = true ∧
        ∀ j, j < i → ∀ b, l.get? j = some b → p b = false := by
  intro l
  induction l with
  | nil => intro a h; simp [List.find?] at h
  | cons x xs ih =>
    intro a h
    by_cases hx : p x = true
    · rw [List.find?_cons_of_pos _ hx] at h
      obtain rfl : x = a := by exact Option.some.inj h
      exact ⟨0, rfl, hx, fun j hj => absurd hj (Nat.not_lt_zero j)⟩
    · rw [List.find?_cons_of_neg _ hx] at h
      obtain ⟨i, hget, hpa, hbefore⟩ := ih a h
      refine ⟨i + 1, hget, hpa, ?_⟩
      intro j hj b hb
      cases j with
      | zero =>
        obtain rfl : x = b := by exact Option.some.inj hb
        simpa using hx
      | succ k => exact hbefore k (Nat.lt_of_succ_lt_succ hj) b hb

/-- In a list pairwise-distinguished by `R`, two members both satisfying a
predicate that contradicts `R` are equal. -/
theorem pairwise_unique_match {α : Type} {R : α → α → Prop} {p : α → Prop}
    (hR : ∀ a b, p a → p b → R a b → False) :
    ∀ (l : List α), l.Pairwise R → ∀ x ∈ l, p x → ∀ y ∈ l, p y → x = y := by
  intro l
  induction l with
  | nil => intro _ x hx; simp at hx
  | cons h t ih =>
    intro hp x hx hpx y hy hpy
    rw [List.pairwise_cons] at hp
    rcases List.mem_cons.mp hx with rfl | hx'
    · rcases List.mem_cons.mp hy with rfl | hy'
      · rfl
      · exact (hR x y hpx hpy (hp.1 y hy')).elim
    · rcases List.mem_cons.mp hy with rfl | hy'
      · exact (hR y x hpy hpx (hp.1 x hx')).elim
      · exact ih hp.2 x hx' hpx y hy' hpy

/-- After the provider appends the freshly created record, the lookup that
previously found nothing finds exactly that record. -/
theorem get_record_append_new (records : List RemoteRecord)
    (domain record_type name content ttl fid : String)
    (hnone : get_record records domain record_type name = none) :
    get_record
        (records ++ [{ id := fid, type := record_type, name := fqn name domain,
                       content := content, ttl := ttl }]) domain record_type name =
      some { id := fid, type := record_type, name := fqn name domain,
             content := content, ttl := ttl } := by
  unfold get_record at *
  rw [List.find?_append, hnone]
  simp [List.find?]

/-- After the provider rewrites content and ttl of every record matching the
target type and name, the lookup finds the rewritten version of the record it
found before. -/
theorem get_record_after_edit (records : List RemoteRecord)
    (domain record_type name content e : String) (r : RemoteRecord)
    (hfound : get_record records domain record_type name = some r) :
    get_record
        (records.map fun x =>
          if x.type == record_type && x.name == fqn name domain then
            { x with content := content, ttl := e } else x)
        domain record_type name =
      some { r with content := content, ttl := e } := by
  unfold get_record at *
  have hr := List.find?_some hfound
  rw [List.find?_map]
  have hpf : ((fun record : RemoteRecord =>
        record.type == record_type && record.name == fqn name domain) ∘
      (fun x : RemoteRecord =>
        if x.type == record_type && x.name == fqn name domain then
          { x with content := content, ttl := e } else x)) =
      fun record : RemoteRecord =>
        record.type == record_type && record.name == fqn name domain := by
    funext x
    by_cases hx : (x.type == record_type && x.name == fqn name domain) = true
    · simp only [Function.comp_apply, if_pos hx]
    · simp only [Function.comp_apply, if_neg hx]
  rw [hpf, hfound]
  simp only [Option.map_some']
  rw [if_pos hr]

/-- After the provider deletes the found record by id, no record matches the
lookup any more — provided the listing held at most one record per type and
fully-qualified name (the spec's provider-contract assumption). -/
theorem get_record_after_delete (records : List RemoteRecord)
    (domain record_type name : String) (r : RemoteRecord)
    (huniq : UniquePerTypeName records)
    (hfound : get_record records domain record_type name = some r) :
    get_record (records.filter fun x => x.id != r.id) domain record_type name = none := by
  unfold UniquePerTypeName at huniq
  unfold get_record at *
  rw [List.find?_eq_none]
  intro x hx hpx
  have hmem := List.mem_filter.mp hx
  have hrmem := List.mem_of_find?_eq_some hfound
  have hpr := List.find?_some hfound
  have hxr : x = r := by
    refine pairwise_unique_match
      (R := fun a b => ¬(a.type = b.type ∧ a.name = b.name))
      (p := fun z => (z.type == record_type && z.name == fqn name domain) = true)
      ?_ records huniq x hmem.1 hpx r hrmem hpr
    intro a b hpa hpb hab
    simp only [Bool.and_eq_true, beq_iff_eq] at hpa hpb
    exact hab ⟨hpa.1.trans hpb.1.symm, hpa.2.trans hpb.2.symm⟩
  rw [hxr] at hmem
  simp at hmem

end LookupLemmas

/-- C1: for every RecordSpec with desired state present for which the lookup
finds no matching remote record, reconciliation issues exactly one mutating
call — a create carrying the spec's domain, record type, name, content and
ttl — and returns changed=true with message "DNS record created". -/
theorem C1_create_when_absent (spec : RecordSpec) (records : List RemoteRecord)
    (cm : Bool) (bodies : ApiCall → Json)
    (hstate : spec.state = DesiredState.present)
    (hnone : get_record records spec.domain spec.record_type spec.name = none) :
    (main spec records cm bodies).1 = .ok ⟨true, "DNS record created"⟩ ∧
    mutatingCalls (main spec records cm bodies).2 =
      [.create spec.domain spec.record_type spec.name spec.content spec.ttl] := by
  rw [main_present_create spec records cm bodies hstate hnone]
  exact ⟨rfl, rfl⟩

/-- C1 witness: the spec's own example — an A record for www.example.com
against an empty record set — yields the create call and the created
result. -/
theorem C1_witness :
    (main ⟨DesiredState.present, "example.com", "A", "www", "192.0.2.1", 3600⟩ []
        false (fun _ => Json.null)).1 = .ok ⟨true, "DNS record created"⟩ ∧
    mutatingCalls (main ⟨DesiredState.present, "example.com", "A", "www", "192.0.2.1", 3600⟩ []
        false (fun _ => Json.null)).2 =
      [.create "example.com" "A" "www" "192.0.2.1" 3600] :=
  C1_create_when_absent ⟨DesiredState.present, "example.com", "A", "www", "192.0.2.1", 3600⟩
    [] false (fun _ => Json.null) rfl rfl

/-- C2: for every RecordSpec with desired state present whose lookup finds a
matching record, a differing content — or an equal content with a parsed ttl
differing from the desired ttl — yields exactly one mutating call, an update
with the spec's content and ttl, and changed=true with message
"DNS record updated"; equal content and equal parsed ttl yield no mutating
call and changed=false with message "DNS record already exists". -/
theorem C2_present_found_update_or_noop (spec : RecordSpec)
    (records : List RemoteRecord) (cm : Bool) (bodies : ApiCall → Json)
    (record : RemoteRecord)
    (hstate : spec.state = DesiredState.present)
    (hfound : get_record records spec.domain spec.record_type spec.name = some record) :
    ((record.content ≠ spec.content ∨
        (record.content = spec.content ∧
          ∃ n, pyInt? record.ttl = some n ∧ n ≠ spec.ttl)) →
      (main spec records cm bodies).1 = .ok ⟨true, "DNS record updated"⟩ ∧
      mutatingCalls (main spec records cm bodies).2 =
        [.editByNameType spec.domain spec.record_type spec.name spec.content spec.ttl]) ∧
    ((record.content = spec.content ∧ pyInt? record.ttl = some spec.ttl) →
      (main spec records cm bodies).1 = .ok ⟨false, "DNS record already exists"⟩ ∧
      mutatingCalls (main spec records cm bodies).2 = []) := by
  constructor
  · rintro (hne | ⟨heq, n, httl, hne⟩)
    · rw [main_present_update_content spec records cm bodies hstate hfound hne]
      exact ⟨rfl, rfl⟩
    · rw [main_present_update_ttl spec records cm bodies hstate hfound heq httl hne]
      exact ⟨rfl, rfl⟩
  · rintro ⟨heq, httl⟩
    rw [main_present_noop spec records cm bodies hstate hfound heq httl]
    exact ⟨rfl, rfl⟩

/-- C2 witness: a remote record with stale content is updated. -/
theorem C2_witness :
    (main ⟨DesiredState.present, "example.com", "A", "www", "192.0.2.2", 600⟩
        [⟨"42", "A", "www.example.com", "192.0.2.1", "600"⟩]
        false (fun _ => Json.null)).1 = .ok ⟨true, "DNS record updated"⟩ ∧
    mutatingCalls (main ⟨DesiredState.present, "example.com", "A", "www", "192.0.2.2", 600⟩
        [⟨"42", "A", "www.example.com", "192.0.2.1", "600"⟩]
        false (fun _ => Json.null)).2 =
      [.editByNameType "example.com" "A" "www" "192.0.2.2" 600] :=
  (C2_present_found_update_or_noop
      ⟨DesiredState.present, "example.com", "A", "www", "192.0.2.2", 600⟩
      [⟨"42", "A", "www.example.com", "192.0.2.1", "600"⟩]
      false (fun _ => Json.null)
      ⟨"42", "A", "www.example.com", "192.0.2.1", "600"⟩
      rfl rfl).1 (Or.inl (by decide))

/-- C3: for every RecordSpec with desired state absent, a found matching
record yields exactly one mutating call — a delete with that record's id —
and changed=true with message "DNS record deleted"; no match yields no
mutating call and changed=false with message "DNS record does not exist". -/
theorem C3_absent_delete_or_noop (spec : RecordSpec)
    (records : List RemoteRecord) (cm : Bool) (bodies : ApiCall → Json)
    (hstate : spec.state = DesiredState.absent) :
    (∀ record, get_record records spec.domain spec.record_type spec.name = some record →
      (main spec records cm bodies).1 = .ok ⟨true, "DNS record deleted"⟩ ∧
      mutatingCalls (main spec records cm bodies).2 =
        [.delete spec.domain record.id]) ∧
    (get_record records spec.domain spec.record_type spec.name = none →
      (main spec records cm bodies).1 = .ok ⟨false, "DNS record does not exist"⟩ ∧
      mutatingCalls (main spec records cm bodies).2 = []) := by
  constructor
  · intro record hfound
    rw [main_absent_delete spec records cm bodies hstate hfound]
    exact ⟨rfl, rfl⟩
  · intro hnone
    rw [main_absent_none spec records cm bodies hstate hnone]
    exact ⟨rfl, rfl⟩

/-- C3 witness: an existing TXT record is deleted by its id. -/
theorem C3_witness :
    (main ⟨DesiredState.absent, "example.com", "TXT", "www", "v=spf1 -all", 600⟩
        [⟨"77", "TXT", "www.example.com", "v=spf1 -all", "600"⟩]
        false (fun _ => Json.null)).1 = .ok ⟨true, "DNS record deleted"⟩ ∧
    mutatingCalls (main ⟨DesiredState.absent, "example.com", "TXT", "www", "v=spf1 -all", 600⟩
        [⟨"77", "TXT", "www.example.com", "v=spf1 -all", "600"⟩]
        false (fun _ => Json.null)).2 = [.delete "example.com" "77"] :=
  (C3_absent_delete_or_noop
      ⟨DesiredState.absent, "example.com", "TXT", "www", "v=spf1 -all", 600⟩
      [⟨"77", "TXT", "www.example.com", "v=spf1 -all", "600"⟩]
      false (fun _ => Json.null) rfl).1
    ⟨"77", "TXT", "www.example.com", "v=spf1 -all", "600"⟩ rfl

/-- C4: ttl drift detection is numeric — a found record whose string-encoded
ttl parses to the desired integer (and whose content matches) triggers no
update: the run reports "DNS record already exists" and issues no mutating
call, regardless of how the remote ttl string is formatted. -/
theorem C4_ttl_comparison_numeric (spec : RecordSpec)
    (records : List RemoteRecord) (cm : Bool) (bodies : ApiCall → Json)
    (record : RemoteRecord)
    (hstate : spec.state = DesiredState.present)
    (hfound : get_record records spec.domain spec.record_type spec.name = some record)
    (hcontent : record.content = spec.content)
    (httl : pyInt? record.ttl = some spec.ttl) :
    (main spec records cm bodies).1 = .ok ⟨false, "DNS record already exists"⟩ ∧
    mutatingCalls (main spec records cm bodies).2 = [] := by
  rw [main_present_noop spec records cm bodies hstate hfound hcontent httl]
  exact ⟨rfl, rfl⟩

/-- C4 witness: a remote ttl of "0600" against a desired ttl of 600 is no
drift — both parse to 600, so no update is issued. -/
theorem C4_witness :
    (main ⟨DesiredState.present, "example.com", "A", "www", "192.0.2.1", 600⟩
        [⟨"42", "A", "www.example.com", "192.0.2.1", "0600"⟩]
        false (fun _ => Json.null)).1 = .ok ⟨false, "DNS record already exists"⟩ ∧
    mutatingCalls (main ⟨DesiredState.present, "example.com", "A", "www", "192.0.2.1", 600⟩
        [⟨"42", "A", "www.example.com", "192.0.2.1", "0600"⟩]
        false (fun _ => Json.null)).2 = [] :=
  C4_ttl_comparison_numeric
    ⟨DesiredState.present, "example.com", "A", "www", "192.0.2.1", 600⟩
    [⟨"42", "A", "www.example.com", "192.0.2.1", "0600"⟩]
    false (fun _ => Json.null)
    ⟨"42", "A", "www.example.com", "192.0.2.1", "0600"⟩
    rfl rfl rfl (by decide)

/-- C7: in every invocation the trace starts with the lookup's retrieve call,
every mutating call comes after it, and at most one mutating call is issued. -/
theorem C7_lookup_first_at_most_one_mutation (spec : RecordSpec)
    (records : List RemoteRecord) (cm : Bool) (bodies : ApiCall → Json) :
    (main spec records cm bodies).2 =
      ApiCall.retrieve spec.domain :: mutatingCalls (main spec records cm bodies).2 ∧
    (mutatingCalls (main spec records cm bodies).2).length ≤ 1 := by
  cases hstate : spec.state with
  | present =>
    cases hrec : get_record records spec.domain spec.record_type spec.name with
    | none =>
      rw [main_present_create spec records cm bodies hstate hrec]
      exact ⟨rfl, Nat.le_refl 1⟩
    | some r =>
      by_cases hc : r.content = spec.content
      · cases httl : pyInt? r.ttl with
        | none =>
          rw [main_present_value_error spec records cm bodies hstate hrec hc httl]
          exact ⟨rfl, Nat.zero_le 1⟩
        | some n =>
          by_cases hne : n = spec.ttl
          · subst hne
            rw [main_present_noop spec records cm bodies hstate hrec hc httl]
            exact ⟨rfl, Nat.zero_le 1⟩
          · rw [main_present_update_ttl spec records cm bodies hstate hrec hc httl hne]
            exact ⟨rfl, Nat.le_refl 1⟩
      · rw [main_present_update_content spec records cm bodies hstate hrec hc]
        exact ⟨rfl, Nat.le_refl 1⟩
  | absent =>
    cases hrec : get_record records spec.domain spec.record_type spec.name with
    | none =>
      rw [main_absent_none spec records cm bodies hstate hrec]
      exact ⟨rfl, Nat.zero_le 1⟩
    | some r =>
      rw [main_absent_delete spec records cm bodies hstate hrec]
      exact ⟨rfl, Nat.le_refl 1⟩

/-- C9: the module declares supports_check_mode=True, yet the check-mode flag
is never consulted — the run, including every issued call, is identical with
the flag on and off, so check-mode runs mutate remote state exactly like
normal runs. -/
theorem C9_check_mode_never_consulted :
    supports_check_mode = true ∧
    ∀ (spec : RecordSpec) (records : List RemoteRecord) (cm : Bool)
      (bodies : ApiCall → Json),
      main spec records cm bodies = main spec records false bodies :=
  ⟨rfl, fun _ _ _ _ => rfl⟩

/-- C10: the parsed JSON bodies of mutating calls are discarded without
inspection — the run is identical whatever the provider puts in them — so a
provider-level failure encoded in an HTTP-success body (here a status=ERROR
object) is still reported as a successful change. -/
theorem C10_mutation_responses_discarded :
    (∀ (spec : RecordSpec) (records : List RemoteRecord) (cm : Bool)
        (b1 b2 : ApiCall → Json),
      main spec records cm b1 = main spec records cm b2) ∧
    (main ⟨DesiredState.present, "example.com", "A", "www", "192.0.2.1", 3600⟩ []
        false (fun _ => Json.obj [("status", Json.str "ERROR")])).1 =
      .ok ⟨true, "DNS record created"⟩ :=
  ⟨fun _ _ _ _ _ => rfl, rfl⟩

/-- C5 counterexample: a response whose JSON lacks a `records` field makes
`get_records` fail with the missing-field access error `KeyError "records"`,
not with an `ApiError`; and a response whose `status` reports a provider
failure but which carries a `records` field succeeds — the status is never
inspected.  Both refute the claim as stated. -/
theorem C5_counterexample :
    get_records (.ok (Json.obj [("status", Json.str "ERROR")])) =
      .error (.keyError "records") ∧
    isApiError (get_records (.ok (Json.obj [("status", Json.str "ERROR")]))) = false ∧
    get_records (.ok (Json.obj [("status", Json.str "ERROR"), ("records", Json.arr [])])) =
      .ok (Json.arr []) :=
  ⟨rfl, rfl, rfl⟩

/-- C5 (amended): the list-records operation fails with a transport error on
network failure; when the response JSON lacks a `records` field it fails with
the propagated missing-field access error (`KeyError`), not an `ApiError`;
and when a `records` field is present it succeeds with that field's value —
the provider's success status is never consulted. -/
theorem C5_get_records_error_behaviour :
    (∀ msg, get_records (.error msg) = .error (.transportError msg)) ∧
    (∀ fields, lookupField fields "records" = none →
      get_records (.ok (Json.obj fields)) = .error (.keyError "records")) ∧
    (∀ fields v, lookupField fields "records" = some v →
      get_records (.ok (Json.obj fields)) = .ok v) := by
  refine ⟨fun _ => rfl, ?_, ?_⟩
  · intro fields h
    simp [get_records, h]
  · intro fields v h
    simp [get_records, h]

/-- C5 witness: a status-only response body yields the KeyError. -/
theorem C5_witness :
    get_records (.ok (Json.obj [("status", Json.str "SUCCESS")])) =
      .error (.keyError "records") :=
  C5_get_records_error_behaviour.2.1 [("status", Json.str "SUCCESS")] rfl

/-- C6: the lookup matches on type and on the fully-qualified target name —
`name.domain` when `name` is non-empty, the bare domain when it is empty —
returning the first matching record in provider-returned order, and `none`
exactly when no record matches. -/
theorem C6_lookup_first_match (records : List RemoteRecord)
    (domain record_type name : String) :
    (∀ r, get_record records domain record_type name = some r →
      ∃ i, records.get? i = some r ∧ matchesTarget record_type name domain r ∧
        ∀ j, j < i → ∀ b, records.get? j = some b →
          ¬ matchesTarget record_type name domain b) ∧
    (get_record records domain record_type name = none →
      ∀ r ∈ records, ¬ matchesTarget record_type name domain r) := by
  have hiff : ∀ r : RemoteRecord,
      (r.type == record_type && r.name == fqn name domain) = true ↔
        matchesTarget record_type name domain r := by
    intro r
    unfold matchesTarget fqn
    by_cases h : name = "" <;> simp [h]
  constructor
  · intro r h
    obtain ⟨i, hget, hpa, hbefore⟩ := find?_first_characterisation _ records r h
    refine ⟨i, hget, (hiff r).mp hpa, ?_⟩
    intro j hj b hb hmb
    have hpb := hbefore j hj b hb
    rw [(hiff b).mpr hmb] at hpb
    exact Bool.true_eq_false.mp hpb
  · intro h r hr hm
    unfold get_record at h
    rw [List.find?_eq_none] at h
    exact h r hr ((hiff r).mpr hm)

/-- C6 witness: with two records both matching type A and name
www.example.com, the lookup returns the first; the theorem instantiates to
the first-match characterisation at that listing. -/
theorem C6_witness :
    ∃ i, [(⟨"1", "A", "www.example.com", "1.1.1.1", "600"⟩ : RemoteRecord),
          ⟨"2", "A", "www.example.com", "2.2.2.2", "600"⟩].get? i =
        some ⟨"1", "A", "www.example.com", "1.1.1.1", "600"⟩ ∧
      matchesTarget "A" "www" "example.com" ⟨"1", "A", "www.example.com", "1.1.1.1", "600"⟩ ∧
      ∀ j, j < i → ∀ b,
        [(⟨"1", "A", "www.example.com", "1.1.1.1", "600"⟩ : RemoteRecord),
         ⟨"2", "A", "www.example.com", "2.2.2.2", "600"⟩].get? j = some b →
          ¬ matchesTarget "A" "www" "example.com" b :=
  (C6_lookup_first_match
      [⟨"1", "A", "www.example.com", "1.1.1.1", "600"⟩,
       ⟨"2", "A", "www.example.com", "2.2.2.2", "600"⟩]
      "example.com" "A" "www").1
    ⟨"1", "A", "www.example.com", "1.1.1.1", "600"⟩ rfl

/-- C8 counterexample: the claim fails as stated in two ways.  First, a spec
whose desired state already holds (absent, empty record set) reports
changed=false on the very first run, not changed=true.  Second, without the
provider-uniqueness assumption the second run need not report changed=false:
with two remote records sharing type A and name www.example.com, the first
absent run deletes only the first record's id, and the second run finds the
duplicate and reports changed=true again. -/
theorem C8_counterexample :
    (main ⟨DesiredState.absent, "example.com", "A", "www", "192.0.2.1", 600⟩ []
        false (fun _ => Json.null)).1 =
      .ok ⟨false, "DNS record does not exist"⟩ ∧
    changedOf (main ⟨DesiredState.absent, "example.com", "A", "www", "192.0.2.1", 600⟩
        (applyCalls (fun _ => "600") "fresh-id"
          [⟨"id1", "A", "www.example.com", "1.1.1.1", "600"⟩,
           ⟨"id2", "A", "www.example.com", "2.2.2.2", "600"⟩]
          (main ⟨DesiredState.absent, "example.com", "A", "www", "192.0.2.1", 600⟩
            [⟨"id1", "A", "www.example.com", "1.1.1.1", "600"⟩,
             ⟨"id2", "A", "www.example.com", "2.2.2.2", "600"⟩]
            false (fun _ => Json.null)).2)
        false (fun _ => Json.null)).1 = some true := by
  exact ⟨rfl, rfl⟩

/-- C8 (amended): for every RecordSpec and every initial listing holding at
most one record per (type, fully-qualified name) — the provider contract the
spec assumes — if the first run completes, it reports changed=true exactly
when it issues a mutating call, and a second run against the state obtained
by faithfully applying the first run's calls (with a ttl encoding that parses
back to the written ttl) reports changed=false. -/
theorem C8_second_run_unchanged (spec : RecordSpec) (records : List RemoteRecord)
    (cm : Bool) (bodies : ApiCall → Json) (enc : Int → String) (fid : String)
    (huniq : UniquePerTypeName records)
    (henc : pyInt? (enc spec.ttl) = some spec.ttl)
    (res : ReconcileResult)
    (hok : (main spec records cm bodies).1 = Except.ok res) :
    (res.changed = true ↔ mutatingCalls (main spec records cm bodies).2 ≠ []) ∧
    changedOf (main spec
        (applyCalls enc fid records (main spec records cm bodies).2) cm bodies).1 =
      some false := by
  cases hstate : spec.state with
  | present =>
    cases hrec : get_record records spec.domain spec.record_type spec.name with
    | none =>
      have h1 := main_present_create spec records cm bodies hstate hrec
      rw [h1] at hok ⊢
      dsimp only at hok ⊢
      cases Except.ok.inj hok
      refine ⟨by simp [mutatingCalls, isMutating], ?_⟩
      dsimp only [applyCalls, List.foldl, applyCall]
      rw [main_present_noop spec _ cm bodies hstate
        (get_record_append_new records spec.domain spec.record_type spec.name
          spec.content (enc spec.ttl) fid hrec) rfl henc]
      rfl
    | some r =>
      by_cases hc : r.content = spec.content
      · cases httl : pyInt? r.ttl with
        | none =>
          have h1 := main_present_value_error spec records cm bodies hstate hrec hc httl
          rw [h1] at hok
          exact absurd hok (by simp)
        | some n =>
          by_cases hne : n = spec.ttl
          · subst hne
            have h1 := main_present_noop spec records cm bodies hstate hrec hc httl
            rw [h1] at hok ⊢
            dsimp only at hok ⊢
            cases Except.ok.inj hok
            refine ⟨by simp [mutatingCalls, isMutating], ?_⟩
            dsimp only [applyCalls, List.foldl, applyCall]
            rw [h1]
            rfl
          · have h1 := main_present_update_ttl spec records cm bodies hstate hrec hc httl hne
            rw [h1] at hok ⊢
            dsimp only at hok ⊢
            cases Except.ok.inj hok
            refine ⟨by simp [mutatingCalls, isMutating], ?_⟩
            dsimp only [applyCalls, List.foldl, applyCall]
            rw [main_present_noop spec _ cm bodies hstate
              (get_record_after_edit records spec.domain spec.record_type spec.name
                spec.content (enc spec.ttl) r hrec) rfl henc]
            rfl
      · have h1 := main_present_update_content spec records cm bodies hstate hrec hc
        rw [h1] at hok ⊢
        dsimp only at hok ⊢
        cases Except.ok.inj hok
        refine ⟨by simp [mutatingCalls, isMutating], ?_⟩
        dsimp only [applyCalls, List.foldl, applyCall]
        rw [main_present_noop spec _ cm bodies hstate
          (get_record_after_edit records spec.domain spec.record_type spec.name
            spec.content (enc spec.ttl) r hrec) rfl henc]
        rfl
  | absent =>
    cases hrec : get_record records spec.domain spec.record_type spec.name with
    | none =>
      have h1 := main_absent_none spec records cm bodies hstate hrec
      rw [h1] at hok ⊢
      dsimp only at hok ⊢
      cases Except.ok.inj hok
      refine ⟨by simp [mutatingCalls, isMutating], ?_⟩
      dsimp only [applyCalls, List.foldl, applyCall]
      rw [h1]
      rfl
    | some r =>
      have h1 := main_absent_delete spec records cm bodies hstate hrec
      rw [h1] at hok ⊢
      dsimp only at hok ⊢
      cases Except.ok.inj hok
      refine ⟨by simp [mutatingCalls, isMutating], ?_⟩
      dsimp only [applyCalls, List.foldl, applyCall]
      rw [main_absent_none spec _ cm bodies hstate
        (get_record_after_delete records spec.domain spec.record_type spec.name r huniq hrec)]
      rfl

/-- C8 witness: the create example run twice — the second run against the
faithfully-updated listing reports no change. -/
theorem C8_witness :
    changedOf (main ⟨DesiredState.present, "example.com", "A", "www", "192.0.2.1", 3600⟩
        (applyCalls (fun _ => "3600") "fresh-id" []
          (main ⟨DesiredState.present, "example.com", "A", "www", "192.0.2.1", 3600⟩ []
            false (fun _ => Json.null)).2)
        false (fun _ => Json.null)).1 = some false :=
  (C8_second_run_unchanged
      ⟨DesiredState.present, "example.com", "A", "www", "192.0.2.1", 3600⟩ []
      false (fun _ => Json.null) (fun _ => "3600") "fresh-id"
      List.Pairwise.nil (by decide) ⟨true, "DNS record created"⟩ rfl).2

end Porkbun
